import Mathlib

/-!
Verification of the data availability & caching layer of the glocal-viz app
(`src/glocal_viz.py`), shallowly embedded in Lean 4.

Conventions used throughout:
* pandas dataframes become lists of structures; a missing value (NaN) in a
  cell becomes `Option.none`.
* `pandas.Series.min()` / `.max()` on a possibly-empty series become
  `List.min?` / `List.max?` (`none` models the NaN produced on an empty
  series).
* Python functions that can `raise` become functions into `Except`, with the
  raised message as the error value.
* Remote reads performed by external libraries (gcsfs/pandas/geopandas) are
  parameters of the embedded functions: the embedding receives the table the
  read would have produced.
-/

namespace GlocalViz

/-! ## Missingness tables and the availability window (lines 228-246) -/

/-- One row of a per-level missingness table `glocal_{x}_missing.parquet` as
read with columns `["year", "GID_0", selected_var]`: `frac` is the selected
variable's missing-fraction cell for that country/year. -/
structure MissingRow where
  year : Int
  gid0 : String
  frac : Rat
deriving DecidableEq, Repr

/-- Embeds `glocal_missing_dict[x].loc[(GID_0 == selected_country) &
(glocal_missing_dict[x][selected_var] < 1), "year"]` (lines 238-242): the
year column of the rows whose country matches and whose missing-fraction is
strictly below 1. -/
def missingvals_year (table : List MissingRow) (country : String) : List Int :=
  (table.filter (fun r => decide (r.gid0 = country ∧ r.frac < 1))).map (·.year)

/-- pandas equality on the results of `Series.min()`/`Series.max()`:
`NaN == x` is `False` for every `x`, including `NaN` itself.  `none` models
NaN. -/
def nanEq : Option Int → Option Int → Bool
  | some a, some b => a == b
  | _, _ => false

/-- Embeds the per-level body of the `availability_dict` loop (lines 243-246):

    if missingvals_year.min() == missingvals_year.max():
        availability_dict[x] = (missingvals_year.min(), missingvals_year.max() + 1)
    else:
        availability_dict[x] = (missingvals_year.min(), missingvals_year.max())

On an empty selection pandas returns NaN from both `min()` and `max()`, the
comparison is `False`, and the stored pair is `(NaN, NaN)`, i.e.
`(none, none)` here. -/
def availability_window (table : List MissingRow) (country : String) :
    Option Int × Option Int :=
  let ys := missingvals_year table country
  if nanEq ys.min? ys.max? then (ys.min?, ys.max?.map (· + 1))
  else (ys.min?, ys.max?)

/-- Error taxonomy of the spec that is relevant to the availability
computation. -/
inductive GlocalError where
  | NoDataAvailable
deriving DecidableEq, Repr

/-- Modelled from the spec (§4.4 `computeWindow`), for comparison with the
code's `availability_window`: on an empty filtered set the result *signals*
`NoDataAvailable`; otherwise it is `(minYear, maxYear)` with the single-year
adjustment. -/
def computeWindowSpec (table : List MissingRow) (country : String) :
    Except GlocalError (Int × Int) :=
  match (missingvals_year table country).min?, (missingvals_year table country).max? with
  | some mn, some mx => .ok (mn, if mn = mx then mx + 1 else mx)
  | _, _ => .error .NoDataAvailable

/-- A one-row table whose only row has missing-fraction 1 (no data), used as
the concrete empty-selection input. -/
def emptySelTable : List MissingRow := [⟨2010, "YYY", 1⟩]

/-! ## Per-level aggregation reads (lines 201-216) -/

/-- One row of the per-level aggregation table `annualized_level_{level}.parquet`
as read by `read_glocal_var`: `value` is the selected variable's cell (`none`
models NaN); `gidSub` is the `GID_1`/`GID_2` cell when the level has one. -/
structure AggRow where
  year : Int
  gid0 : String
  gidSub : Option String
  value : Option Rat
deriving DecidableEq, Repr

/-- Embeds the column-selection prefix of `read_glocal_var` (lines 203-210):

    if level == 0:   vars_to_read = ["year", "GID_0", selected_var]
    elif level == 1: vars_to_read = ["year", "GID_0", "GID_1", selected_var]
    elif level == 2: vars_to_read = ["year", "GID_0", "GID_2", selected_var]
    else: raise ValueError("GADM level not supported")
-/
def read_glocal_var_cols (level : Int) (selected_var : String) :
    Except String (List String) :=
  if level = 0 then .ok ["year", "GID_0", selected_var]
  else if level = 1 then .ok ["year", "GID_0", "GID_1", selected_var]
  else if level = 2 then .ok ["year", "GID_0", "GID_2", selected_var]
  else .error "GADM level not supported"

/-- Embeds `read_glocal_var` (lines 201-216) with the remote read
parametrized: `fetch cols` stands for the table returned by
`read_data(f"annualized_level_{level}.parquet", columns=cols)`.  After the
read, `df.dropna(subset=[selected_var])` drops every row whose
selected-variable cell is missing. -/
def read_glocal_var (level : Int) (selected_var : String)
    (fetch : List String → List AggRow) : Except String (List AggRow) := do
  let cols ← read_glocal_var_cols level selected_var
  let df := fetch cols
  return df.filter (fun r => r.value.isSome)

/-! ## Subnational level for the choropleth view (lines 438-443, 457-464) -/

/-- Embeds lines 438-443:

    if selected_gadm_level in [0, 1]: subnational_gadm_level = 1
    elif selected_gadm_level == 2:    subnational_gadm_level = 2
    else: raise ValueError("GADM level must be 0, 1, or 2.")
-/
def subnational_gadm_level (selected_gadm_level : Int) : Except String Int :=
  if selected_gadm_level = 0 ∨ selected_gadm_level = 1 then .ok 1
  else if selected_gadm_level = 2 then .ok 2
  else .error "GADM level must be 0, 1, or 2."

/-- Embeds the dispatch at lines 457-464 choosing which aggregation level the
choropleth (`glocal`) read uses: level 1 when the subnational level is 1,
level 2 when the selected level is 2. -/
def choropleth_read_level (selected_gadm_level : Int) : Except String Int := do
  let sub ← subnational_gadm_level selected_gadm_level
  if sub = 1 then .ok 1
  else if selected_gadm_level = 2 then .ok 2
  else .error "Subnational GADM level must be 1, or 2."

/-! ## Remote object reads (lines 40-67) -/

/-- An in-memory table: named columns and rows of cells.  Only the column
names matter to the schema checks below; rows carry the payload so that
"no partial record is returned" is visible in the statements. -/
structure DataFrame where
  columns : List String
  rows : List (List String)
deriving DecidableEq, Repr

/-- Python `str.endswith`, on the underlying character sequences. -/
def pyEndsWith (s suffix : String) : Bool :=
  List.isSuffixOf suffix.data s.data

/-- Embeds `gcsfs_to_pandas` (lines 40-54), with the library reads
parametrized: `readParquet columns` stands for
`pd.read_parquet(f, columns=columns)` (which may itself raise, hence
`Except`), and `readCsv` for the table `pd.read_csv(f)` returns.

    if file_name.endswith(".parquet"): df = pd.read_parquet(f, columns=columns)
    elif file_name.endswith(".csv"):
        if columns is not None: raise ValueError("Columns not supported for CSV files")
        df = pd.read_csv(f)
    else: raise ValueError("File format not supported")
-/
def gcsfs_to_pandas (file_name : String) (columns : Option (List String))
    (readParquet : Option (List String) → Except String DataFrame)
    (readCsv : DataFrame) : Except String DataFrame :=
  if pyEndsWith file_name ".parquet" then readParquet columns
  else if pyEndsWith file_name ".csv" then
    match columns with
    | some _ => .error "Columns not supported for CSV files"
    | none => .ok readCsv
  else .error "File format not supported"

/-- Embeds `gcsfs_to_geopandas` (lines 57-67), analogously:
`readParquet columns` stands for `gpd.read_parquet(f, columns=columns)` and
`readShp` for `gpd.read_file(f)`. -/
def gcsfs_to_geopandas (file_name : String) (columns : Option (List String))
    (readParquet : Option (List String) → Except String DataFrame)
    (readShp : DataFrame) : Except String DataFrame :=
  if pyEndsWith file_name ".parquet" then readParquet columns
  else if pyEndsWith file_name ".shp" then
    match columns with
    | some _ => .error "Columns not supported for Shapefiles"
    | none => .ok readShp
  else .error "File format not supported"

/-! ## Boundary (shapefile) lookups (lines 97-137) -/

/-- `f"GID_{level}"`. -/
def gidCol (level : Int) : String := "GID_" ++ toString level

/-- `f"NAME_{level}"`. -/
def nameCol (level : Int) : String := "NAME_" ++ toString level

/-- `vars_to_read` of `get_country_shapefile` (lines 99-102). -/
def shapefile_vars (level : Int) : List String := [gidCol level, nameCol level]

/-- `vars_to_read` of `get_country_shapefile_as_geojson` (lines 119-123). -/
def geojson_vars (level : Int) : List String :=
  [gidCol level, nameCol level, "geometry"]

/-- Embeds the column-presence loop shared by both boundary lookups
(lines 109-112 and 130-133): raise at the first required column missing from
the fetched table, otherwise return the table unchanged.

    for col in vars_to_read:
        if col not in gdf.columns:
            raise ValueError(f"Column \x7bcol\x7d not found in shapefile")
-/
def check_columns (vars_to_read : List String) (gdf : DataFrame) :
    Except String DataFrame :=
  match vars_to_read with
  | [] => .ok gdf
  | c :: cs =>
    if c ∈ gdf.columns then check_columns cs gdf
    else .error ("Column " ++ c ++ " not found in shapefile")

/-- Embeds `get_country_shapefile` (lines 97-113), with the remote read
parametrized: `fetched` is the table
`read_data(f"simplified_shapefiles/.../\x7bcountry\x7d.parquet", columns=vars_to_read,
spatial=False)` returns. -/
def get_country_shapefile (level : Int) (country : String)
    (fetched : DataFrame) : Except String DataFrame :=
  check_columns (shapefile_vars level) fetched

/-- Embeds `get_country_shapefile_as_geojson` (lines 117-137): the same
check with `geometry` also required.  The trailing
`json.loads(gdf.to_json())` is a pure transform of the checked table, kept
here as the table itself. -/
def get_country_shapefile_as_geojson (level : Int) (country : String)
    (fetched : DataFrame) : Except String DataFrame :=
  check_columns (geojson_vars level) fetched

/-! ## Cache layer (line 83, `@st.cache_data(ttl=900)` on `read_data`) -/

/-- A Dataset Request: the argument tuple of `read_data(path_in_bucket,
columns, spatial)` (lines 83-93), which is the cache key of
`@st.cache_data(ttl=900)`. -/
structure Request where
  path : String
  columns : Option (List String)
  spatial : Bool
deriving DecidableEq, Repr

/-- Cache entries: request fingerprint, payload, fetch timestamp
(seconds). -/
abbrev CacheState (α : Type) := List (Request × α × Nat)

/-- The TTL of every cached entry in seconds, from `ttl=900`. -/
def cacheTTL : Nat := 900

/-- Modelled from the spec (§4.2, §9): the memoization itself is performed
by streamlit's `st.cache_data` decorator, which is not part of this
repository; following the spec it is "a mapping from fingerprint to
(payload, timestamp) guarded by a freshness check".  `cacheLookup` returns
the most recently stored entry for a request. -/
def cacheLookup {α : Type} (st : CacheState α) (r : Request) :
    Option (α × Nat) :=
  match st.find? (fun e => decide (e.1 = r)) with
  | some (_, payload, ts) => some (payload, ts)
  | none => none

/-- Modelled from the spec (§4.2 `getOrFetch(request)`): `now` is the
current clock in seconds and `fetch` the Remote Object Reader.  A live entry
(age < TTL) is returned with no fetch; otherwise the reader is invoked and
the result stored with the current timestamp.  Returns the payload, the
updated cache, and whether the reader was invoked. -/
def getOrFetch {α : Type} (fetch : Request → α) (now : Nat)
    (st : CacheState α) (r : Request) : α × CacheState α × Bool :=
  match cacheLookup st r with
  | some (payload, ts) =>
    if now - ts < cacheTTL then (payload, st, false)
    else (fetch r, (r, fetch r, now) :: st, true)
  | none => (fetch r, (r, fetch r, now) :: st, true)

/-- The request for `country_codes.parquet` (line 147), used as a concrete
witness request. -/
def reqCC : Request := ⟨"country_codes.parquet", none, false⟩

/-! ## CSV download transform (lines 70-72) -/

/-- A Table for CSV serialization: column names and rows of cells, all as
character sequences. -/
structure CsvTable where
  header : List (List Char)
  rows : List (List (List Char))
deriving DecidableEq, Repr

/-- Escape of a single character inside a CSV cell: the backslash, the
comma separator, and the newline separator are written as two-character
escape pairs, every other character stands for itself.  This plays the role
RFC-4180 quoting plays in pandas' writer: separator characters occurring in
cell data never collide with the separators of the format. -/
def esc (ch : Char) : List Char :=
  if ch = '\\' then ['\\', '\\']
  else if ch = ',' then ['\\', 'c']
  else if ch = '\n' then ['\\', 'n']
  else [ch]

/-- A cell's characters escaped, concatenated. -/
def escapeCell (cell : List Char) : List Char := (cell.map esc).flatten

/-- A serialized cell: the empty cell is written as the escape pair `\e`
(so that an empty row and a row of empty cells stay distinguishable, as
they are in a dataframe); every other cell is its escaped characters. -/
def encodeCell (cell : List Char) : List Char :=
  if cell = [] then ['\\', 'e'] else escapeCell cell

/-- Inverse of the character escape: an escape pair becomes the escaped
character, anything else stands for itself. -/
def unescape : List Char → List Char
  | [] => []
  | [ch] => [ch]
  | a :: b :: r =>
    if a = '\\' then
      (if b = '\\' then '\\' else if b = 'c' then ',' else
        if b = 'n' then '\n' else b) :: unescape r
    else a :: unescape (b :: r)

/-- Inverse of `encodeCell`. -/
def decodeCell (s : List Char) : List Char :=
  if s = ['\\', 'e'] then [] else unescape s

/-- A serialized row: its encoded cells joined by commas. -/
def encodeRow (cells : List (List Char)) : List Char :=
  List.intercalate [','] (cells.map encodeCell)

/-- Inverse of `encodeRow`: the empty line is the empty row, any other line
splits on commas into encoded cells. -/
def decodeRow (line : List Char) : List (List Char) :=
  if line = [] then [] else (line.splitOn ',').map decodeCell

/-- Modelled from the spec (§6(d)): `convert_df` (lines 70-72) delegates to
pandas' `df.to_csv(index=False).encode("utf-8")`, which is not part of this
repository; following the spec it is a pure formatting transform writing
the comma-separated header line followed by one comma-separated line per
row, lines separated by newlines, separator characters inside cells escaped
(pandas quotes such fields per RFC 4180 to the same effect; bytes are
modelled as characters). -/
def convert_df (t : CsvTable) : List Char :=
  List.intercalate ['\n'] ((t.header :: t.rows).map encodeRow)

/-- Modelled from the spec (§8.8): re-parsing the downloaded CSV (the
`pd.read_csv` on the consumer's side is not part of this repository): split
into newline-separated lines and decode each; the first line is the header,
the remaining lines are the rows. -/
def parse_csv (s : List Char) : CsvTable :=
  let lines := s.splitOn '\n'
  ⟨decodeRow (lines.headD []), lines.tail.map decodeRow⟩

end GlocalViz

namespace GlocalViz

/-! ## Theorems about the availability window -/

/-- C1, counterexample.  The claim says that on an empty filtered set the
code's availability computation "signals NoDataAvailable rather than
returning year bounds".  At the concrete input below the filtered set is
empty, yet the code raises nothing: it returns the pair `(NaN, NaN)`
(modelled `(none, none)`), while the spec-modelled `computeWindowSpec`
signals `NoDataAvailable`.  The code returns, it does not signal. -/
theorem availability_window_empty_no_signal :
    missingvals_year emptySelTable "YYY" = [] ∧
    availability_window emptySelTable "YYY" = (none, none) ∧
    computeWindowSpec emptySelTable "YYY" = .error .NoDataAvailable := by
  refine ⟨by decide, ?_, by rfl⟩
  simp [availability_window, missingvals_year, emptySelTable, nanEq]

/-- C1, amended.  If the filtered set is empty, the availability computation
returns the undefined pair `(NaN, NaN)` — modelled as `(none, none)` —
without signaling `NoDataAvailable`: pandas `min`/`max` of an empty
selection are NaN, `NaN == NaN` is false, so the else-branch stores the NaN
bounds unchanged. -/
theorem availability_window_empty_returns_nan (table : List MissingRow)
    (country : String) (h : missingvals_year table country = []) :
    availability_window table country = (none, none) := by
  simp [availability_window, h, nanEq]

/-- Witness for `availability_window_empty_returns_nan` at a concrete
no-data input. -/
theorem availability_window_empty_returns_nan_witness :
    availability_window [⟨2011, "ZZZ", 1⟩] "ZZZ" = (none, none) :=
  availability_window_empty_returns_nan _ _ (by decide)

/-- C2.  On a non-empty filtered set the window is `(min year, max year)` of
the filtered set, except that when min = max the returned max is that year
plus one. -/
theorem availability_window_nonempty (table : List MissingRow)
    (country : String) (mn mx : Int)
    (hmn : (missingvals_year table country).min? = some mn)
    (hmx : (missingvals_year table country).max? = some mx) :
    availability_window table country =
      (some mn, some (if mn = mx then mx + 1 else mx)) := by
  unfold availability_window
  simp only [hmn, hmx, nanEq]
  by_cases h : mn = mx <;> simp [h]

/-- Witness for `availability_window_nonempty`: data present only in year
2010 yields the window (2010, 2011). -/
theorem availability_window_nonempty_witness :
    availability_window [⟨2010, "XXX", 0⟩] "XXX" = (some 2010, some 2011) := by
  have h := availability_window_nonempty [⟨2010, "XXX", 0⟩] "XXX" 2010 2010
    (by decide) (by decide)
  simpa using h

/-- C4.  Whenever the availability computation returns actual year bounds
(the filtered set was non-empty), the earliest year is ≤ the latest year. -/
theorem availability_window_min_le_max (table : List MissingRow)
    (country : String) (a b : Int)
    (h : availability_window table country = (some a, some b)) : a ≤ b := by
  unfold availability_window at h
  set ys := missingvals_year table country with hys
  by_cases hn : nanEq ys.min? ys.max? = true
  · rw [if_pos hn] at h
    obtain ⟨h1, h2⟩ := Prod.mk.injEq .. ▸ h
    match hmn : ys.min?, hmx : ys.max?, hn with
    | some x, some y, hn =>
      rw [hmn] at h1
      rw [hmx] at h2
      simp only [nanEq, beq_iff_eq] at hn
      simp only [Option.map_some', Option.some.injEq] at h1 h2
      omega
  · rw [if_neg hn] at h
    obtain ⟨h1, h2⟩ := Prod.mk.injEq .. ▸ h
    have hamem : a ∈ ys := List.min?_mem (fun x y => min_choice x y) h1
    have hble := List.max?_le_iff (fun x y z => max_le_iff) h2 (x := b)
    exact (hble.mp le_rfl) a hamem

/-- Witness for `availability_window_min_le_max` at a concrete two-year
input. -/
theorem availability_window_min_le_max_witness : (2009 : Int) ≤ 2012 :=
  availability_window_min_le_max
    [⟨2009, "WWW", 0⟩, ⟨2012, "WWW", 0⟩] "WWW" 2009 2012 (by decide)

/-! ## Theorems about the remote reads and boundary lookups -/

lemma isSuffix_of_pyEndsWith {s t : String} (h : pyEndsWith s t = true) :
    t.data <:+ s.data :=
  List.isSuffixOf_iff_suffix.mp h

lemma not_parquet_of_csv {s : String} (h : pyEndsWith s ".csv" = true) :
    pyEndsWith s ".parquet" = false := by
  rw [Bool.eq_false_iff]
  intro hp
  rcases List.suffix_or_suffix_of_suffix (isSuffix_of_pyEndsWith h)
      (isSuffix_of_pyEndsWith hp) with hcp | hpc
  · exact absurd hcp (by decide)
  · exact absurd hpc (by decide)

lemma not_parquet_of_shp {s : String} (h : pyEndsWith s ".shp" = true) :
    pyEndsWith s ".parquet" = false := by
  rw [Bool.eq_false_iff]
  intro hp
  rcases List.suffix_or_suffix_of_suffix (isSuffix_of_pyEndsWith h)
      (isSuffix_of_pyEndsWith hp) with hcp | hpc
  · exact absurd hcp (by decide)
  · exact absurd hpc (by decide)

/-- C7.  Requesting a column subset on a delimited-text (`.csv`) object or a
shape-format (`.shp`) object always fails with the corresponding
"Columns not supported" error, regardless of the object's contents (the
parametrized library reads are arbitrary). -/
theorem columns_rejected_incompatible_formats
    (csv_name shp_name : String) (cols : List String)
    (readParquetP readParquetG : Option (List String) → Except String DataFrame)
    (readCsv readShp : DataFrame)
    (h1 : pyEndsWith csv_name ".csv" = true)
    (h2 : pyEndsWith shp_name ".shp" = true) :
    gcsfs_to_pandas csv_name (some cols) readParquetP readCsv =
      .error "Columns not supported for CSV files" ∧
    gcsfs_to_geopandas shp_name (some cols) readParquetG readShp =
      .error "Columns not supported for Shapefiles" := by
  constructor
  · simp [gcsfs_to_pandas, not_parquet_of_csv h1, h1]
  · simp [gcsfs_to_geopandas, not_parquet_of_shp h2, h2]

/-- Witness for `columns_rejected_incompatible_formats` on concrete
`.csv`/`.shp` names with a one-column request. -/
theorem columns_rejected_incompatible_formats_witness :
    gcsfs_to_pandas "glocal_0_rank.csv" (some ["a"])
        (fun _ => .ok ⟨[], []⟩) ⟨[], []⟩ =
      .error "Columns not supported for CSV files" ∧
    gcsfs_to_geopandas "USA.shp" (some ["a"])
        (fun _ => .ok ⟨[], []⟩) ⟨[], []⟩ =
      .error "Columns not supported for Shapefiles" :=
  columns_rejected_incompatible_formats "glocal_0_rank.csv" "USA.shp" ["a"]
    _ _ _ _ (by decide) (by decide)

lemma check_columns_ok (vars : List String) (df : DataFrame)
    (h : ∀ c ∈ vars, c ∈ df.columns) : check_columns vars df = .ok df := by
  induction vars with
  | nil => rfl
  | cons c cs ih =>
    simp only [check_columns]
    rw [if_pos (h c (List.mem_cons_self c cs))]
    exact ih fun x hx => h x (List.mem_cons_of_mem _ hx)

lemma check_columns_err (vars : List String) (df : DataFrame)
    (h : ∃ c ∈ vars, c ∉ df.columns) :
    ∃ c ∈ vars, c ∉ df.columns ∧
      check_columns vars df =
        .error ("Column " ++ c ++ " not found in shapefile") := by
  induction vars with
  | nil => obtain ⟨c, hc, -⟩ := h; cases hc
  | cons c cs ih =>
    by_cases hm : c ∈ df.columns
    · have hcs : ∃ x ∈ cs, x ∉ df.columns := by
        obtain ⟨x, hx, hnx⟩ := h
        rcases List.mem_cons.mp hx with rfl | h'
        · exact absurd hm hnx
        · exact ⟨x, h', hnx⟩
      obtain ⟨x, hx, hnx, he⟩ := ih hcs
      refine ⟨x, List.mem_cons_of_mem _ hx, hnx, ?_⟩
      simp only [check_columns]
      rw [if_pos hm]
      exact he
    · refine ⟨c, List.mem_cons_self c cs, hm, ?_⟩
      simp only [check_columns]
      rw [if_neg hm]

/-- C5.  Both boundary lookups check, after the fetch, that every required
column is present ({GID_level, NAME_level}, plus geometry for the spatial
variant); when all are present the full fetched record is returned, and when
any is absent the lookup fails with an error naming a missing column — no
partial record is returned. -/
theorem boundary_schema_validation (level : Int) (country : String)
    (df : DataFrame) :
    ((∃ c ∈ shapefile_vars level, c ∉ df.columns) →
      ∃ c ∈ shapefile_vars level, c ∉ df.columns ∧
        get_country_shapefile level country df =
          .error ("Column " ++ c ++ " not found in shapefile")) ∧
    ((∃ c ∈ geojson_vars level, c ∉ df.columns) →
      ∃ c ∈ geojson_vars level, c ∉ df.columns ∧
        get_country_shapefile_as_geojson level country df =
          .error ("Column " ++ c ++ " not found in shapefile")) ∧
    ((∀ c ∈ shapefile_vars level, c ∈ df.columns) →
      get_country_shapefile level country df = .ok df) ∧
    ((∀ c ∈ geojson_vars level, c ∈ df.columns) →
      get_country_shapefile_as_geojson level country df = .ok df) :=
  ⟨fun h => check_columns_err _ df h,
   fun h => check_columns_err _ df h,
   fun h => check_columns_ok _ df h,
   fun h => check_columns_ok _ df h⟩

/-- Witness for `boundary_schema_validation`: a fetched level-1 boundary
table lacking the expected name column `NAME_1` makes the lookup fail with
an error naming a missing column. -/
theorem boundary_schema_validation_witness :
    ∃ c ∈ shapefile_vars 1,
      c ∉ (DataFrame.mk ["GID_1"] []).columns ∧
        get_country_shapefile 1 "USA" (DataFrame.mk ["GID_1"] []) =
          .error ("Column " ++ c ++ " not found in shapefile") :=
  (boundary_schema_validation 1 "USA" (DataFrame.mk ["GID_1"] [])).1
    ⟨"NAME_1", by decide, by decide⟩

/-! ## Theorems about the per-level aggregation read -/

/-- C6.  `read_glocal_var` selects `{year, GID_0, var}` at level 0,
`{year, GID_0, GID_1, var}` at level 1, `{year, GID_0, GID_2, var}` at
level 2, and raises `GADM level not supported` at every other level. -/
theorem read_glocal_var_cols_spec (v : String) :
    read_glocal_var_cols 0 v = .ok ["year", "GID_0", v] ∧
    read_glocal_var_cols 1 v = .ok ["year", "GID_0", "GID_1", v] ∧
    read_glocal_var_cols 2 v = .ok ["year", "GID_0", "GID_2", v] ∧
    ∀ level : Int, level ≠ 0 → level ≠ 1 → level ≠ 2 →
      read_glocal_var_cols level v = .error "GADM level not supported" := by
  refine ⟨rfl, rfl, rfl, ?_⟩
  intro level h0 h1 h2
  simp [read_glocal_var_cols, h0, h1, h2]

/-- Witness for `read_glocal_var_cols_spec`: level 3 is rejected. -/
theorem read_glocal_var_cols_spec_witness :
    read_glocal_var_cols 3 "anyVariable" = .error "GADM level not supported" :=
  (read_glocal_var_cols_spec "anyVariable").2.2.2 3 (by decide) (by decide)
    (by decide)

/-- C9.  At every supported level, `read_glocal_var` succeeds and every row
of the returned table has a non-missing value in the selected variable's
column: rows where the variable is missing are dropped before return. -/
theorem read_glocal_var_drops_missing (level : Int) (v : String)
    (fetch : List String → List AggRow)
    (h : level = 0 ∨ level = 1 ∨ level = 2) :
    ∃ t, read_glocal_var level v fetch = .ok t ∧
      ∀ r ∈ t, r.value.isSome := by
  rcases h with rfl | rfl | rfl <;>
    exact ⟨_, rfl, fun r hr => (List.mem_filter.mp hr).2⟩

/-- Witness for `read_glocal_var_drops_missing` at level 0 on a concrete
fetched table containing one missing-value row. -/
theorem read_glocal_var_drops_missing_witness :
    ∃ t, read_glocal_var 0 "gdp"
        (fun _ => [⟨2000, "AAA", none, none⟩, ⟨2001, "AAA", none, some 5⟩]) =
        .ok t ∧ ∀ r ∈ t, r.value.isSome :=
  read_glocal_var_drops_missing 0 "gdp" _ (Or.inl rfl)

/-! ## Theorems about the subnational level -/

/-- C10.  For every selected level in {0,1,2} the subnational level used by
the choropleth view is `max(selected level, 1)`, both in the
`subnational_gadm_level` computation and in the dispatch that picks the
aggregation level actually read. -/
theorem subnational_level_is_max (l : Int) (h : l = 0 ∨ l = 1 ∨ l = 2) :
    subnational_gadm_level l = .ok (max l 1) ∧
    choropleth_read_level l = .ok (max l 1) := by
  rcases h with rfl | rfl | rfl <;> exact ⟨rfl, rfl⟩

/-- Witness for `subnational_level_is_max` at selected level 0. -/
theorem subnational_level_is_max_witness :
    subnational_gadm_level 0 = .ok (max 0 1) ∧
    choropleth_read_level 0 = .ok (max 0 1) :=
  subnational_level_is_max 0 (Or.inl rfl)

/-! ## Theorems about the cache layer -/

lemma cacheLookup_cons_self {α : Type} (st : CacheState α) (r : Request)
    (v : α) (t : Nat) : cacheLookup ((r, v, t) :: st) r = some (v, t) := by
  simp [cacheLookup, List.find?]

lemma getOrFetch_miss {α : Type} {fetch : Request → α} {now : Nat}
    {st : CacheState α} {r : Request} (hL : cacheLookup st r = none) :
    getOrFetch fetch now st r = (fetch r, (r, fetch r, now) :: st, true) := by
  simp [getOrFetch, hL]

lemma getOrFetch_hit {α : Type} {fetch : Request → α} {now : Nat}
    {st : CacheState α} {r : Request} {p : α} {ts : Nat}
    (hL : cacheLookup st r = some (p, ts)) (hf : now - ts < cacheTTL) :
    getOrFetch fetch now st r = (p, st, false) := by
  simp [getOrFetch, hL, hf]

lemma getOrFetch_stale {α : Type} {fetch : Request → α} {now : Nat}
    {st : CacheState α} {r : Request} {p : α} {ts : Nat}
    (hL : cacheLookup st r = some (p, ts)) (hf : ¬ now - ts < cacheTTL) :
    getOrFetch fetch now st r = (fetch r, (r, fetch r, now) :: st, true) := by
  simp [getOrFetch, hL, hf]

/-- C3.  (spec-modelled) Two calls to `getOrFetch` for the same request
within the 900-second TTL invoke the Remote Object Reader at most once; and
for an entry whose age has reached the TTL, the call invokes the reader
again and returns the freshly fetched payload — a stale entry is never
returned. -/
theorem getOrFetch_ttl {α : Type} (fetch : Request → α) (st : CacheState α)
    (r : Request) (t1 t2 : Nat) (v1 v2 : α) (st1 st2 : CacheState α)
    (b1 b2 : Bool) (h1 : t1 ≤ t2) (h12 : t2 - t1 < cacheTTL)
    (hcall1 : getOrFetch fetch t1 st r = (v1, st1, b1))
    (hcall2 : getOrFetch fetch t2 st1 r = (v2, st2, b2)) :
    (¬(b1 = true ∧ b2 = true)) ∧
    (∀ (t3 ts : Nat) (p : α), cacheLookup st r = some (p, ts) →
      cacheTTL ≤ t3 - ts →
      getOrFetch fetch t3 st r = (fetch r, (r, fetch r, t3) :: st, true)) := by
  constructor
  · rintro ⟨hb1, hb2⟩
    subst hb1
    subst hb2
    rcases hL : cacheLookup st r with - | ⟨p, ts⟩
    · rw [getOrFetch_miss hL] at hcall1
      simp only [Prod.mk.injEq] at hcall1
      obtain ⟨-, hst1, -⟩ := hcall1
      rw [← hst1, getOrFetch_hit (cacheLookup_cons_self st r (fetch r) t1) h12]
        at hcall2
      simp at hcall2
    · by_cases hf : t1 - ts < cacheTTL
      · rw [getOrFetch_hit hL hf] at hcall1
        simp at hcall1
      · rw [getOrFetch_stale hL hf] at hcall1
        simp only [Prod.mk.injEq] at hcall1
        obtain ⟨-, hst1, -⟩ := hcall1
        rw [← hst1, getOrFetch_hit (cacheLookup_cons_self st r (fetch r) t1) h12]
          at hcall2
        simp at hcall2
  · intro t3 ts p hL h3
    exact getOrFetch_stale hL (by omega)

/-- Witness for `getOrFetch_ttl`: a cache holding one entry for
`country_codes.parquet` fetched at time 0; a first call at time 1000
refetches, a second at time 1001 hits; and a direct call at time 900 (TTL
reached) refetches and replaces the entry. -/
theorem getOrFetch_ttl_witness :
    (¬(true = true ∧ false = true)) ∧
    getOrFetch (fun _ => 7) 900 [(reqCC, 5, 0)] reqCC =
      (7, (reqCC, 7, 900) :: [(reqCC, 5, 0)], true) :=
  ⟨(getOrFetch_ttl (fun _ => 7) [(reqCC, 5, 0)] reqCC 1000 1001 7 7
      ((reqCC, 7, 1000) :: [(reqCC, 5, 0)]) ((reqCC, 7, 1000) :: [(reqCC, 5, 0)])
      true false (by decide) (by decide) (by decide) (by decide)).1,
   (getOrFetch_ttl (fun _ => 7) [(reqCC, 5, 0)] reqCC 1000 1001 7 7
      ((reqCC, 7, 1000) :: [(reqCC, 5, 0)]) ((reqCC, 7, 1000) :: [(reqCC, 5, 0)])
      true false (by decide) (by decide) (by decide) (by decide)).2
     900 0 5 (by decide) (by decide)⟩

/-! ## Theorems about the CSV download transform -/

lemma mem_intersperse {α : Type} {sep l : α} {xs : List α}
    (h : l ∈ List.intersperse sep xs) : l ∈ xs ∨ l = sep := by
  induction xs with
  | nil => simp [List.intersperse] at h
  | cons a tl ih =>
    cases tl with
    | nil =>
      simp only [List.intersperse_singleton, List.mem_singleton] at h
      exact Or.inl (by simp [h])
    | cons b tl2 =>
      rw [List.intersperse_cons_cons] at h
      simp only [List.mem_cons] at h
      rcases h with rfl | rfl | h
      · exact Or.inl (List.mem_cons_self _ _)
      · exact Or.inr rfl
      · rcases ih (by simpa using h) with h' | h'
        · exact Or.inl (List.mem_cons_of_mem _ h')
        · exact Or.inr h'

lemma not_mem_intercalate_single {c s : Char} {row : List (List Char)}
    (hc : c ≠ s) (h : ∀ cell ∈ row, c ∉ cell) :
    c ∉ List.intercalate [s] row := by
  intro hmem
  rw [List.intercalate, List.mem_flatten] at hmem
  obtain ⟨l, hl, hcl⟩ := hmem
  rcases mem_intersperse hl with h' | rfl
  · exact h l h' hcl
  · simp only [List.mem_singleton] at hcl
    exact hc hcl

lemma esc_ne_nil (ch : Char) : esc ch ≠ [] := by
  unfold esc
  split_ifs <;> simp

lemma comma_not_mem_esc (ch : Char) : (',' : Char) ∉ esc ch := by
  unfold esc
  split_ifs with h1 h2 h3
  · decide
  · decide
  · decide
  · simp only [List.mem_singleton]
    exact fun hh => h2 hh.symm

lemma newline_not_mem_esc (ch : Char) : ('\n' : Char) ∉ esc ch := by
  unfold esc
  split_ifs with h1 h2 h3
  · decide
  · decide
  · decide
  · simp only [List.mem_singleton]
    exact fun hh => h3 hh.symm

lemma unescape_esc_append (ch : Char) (s : List Char) :
    unescape (esc ch ++ s) = ch :: unescape s := by
  unfold esc
  split_ifs with h1 h2 h3
  · subst h1; simp [unescape]
  · subst h2; simp [unescape]
  · subst h3; simp [unescape]
  · cases s with
    | nil => simp [unescape]
    | cons b r => simp [unescape, h1]

lemma unescape_escapeCell_append (c s : List Char) :
    unescape (escapeCell c ++ s) = c ++ unescape s := by
  induction c with
  | nil => simp [escapeCell, unescape]
  | cons ch rest ih =>
    simp only [escapeCell, List.map_cons, List.flatten_cons,
      List.append_assoc] at ih ⊢
    rw [unescape_esc_append, ih]
    rfl

lemma comma_not_mem_encodeCell (c : List Char) :
    (',' : Char) ∉ encodeCell c := by
  unfold encodeCell
  split_ifs
  · decide
  · intro hmem
    simp only [escapeCell, List.mem_flatten] at hmem
    obtain ⟨l, hl, hcl⟩ := hmem
    obtain ⟨ch, -, rfl⟩ := List.mem_map.mp hl
    exact comma_not_mem_esc ch hcl

lemma newline_not_mem_encodeCell (c : List Char) :
    ('\n' : Char) ∉ encodeCell c := by
  unfold encodeCell
  split_ifs
  · decide
  · intro hmem
    simp only [escapeCell, List.mem_flatten] at hmem
    obtain ⟨l, hl, hcl⟩ := hmem
    obtain ⟨ch, -, rfl⟩ := List.mem_map.mp hl
    exact newline_not_mem_esc ch hcl

lemma encodeCell_ne_nil (c : List Char) : encodeCell c ≠ [] := by
  unfold encodeCell
  split_ifs with h
  · decide
  · match c, h with
    | ch :: rest, _ =>
      simp [escapeCell, esc_ne_nil]

lemma escapeCell_ne_marker {c : List Char} (hc : c ≠ []) :
    escapeCell c ≠ ['\\', 'e'] := by
  match c, hc with
  | ch :: rest, _ =>
    intro h
    simp only [escapeCell, List.map_cons, List.flatten_cons] at h
    unfold esc at h
    split_ifs at h with h1 h2 h3
    · simp at h
    · simp at h
    · simp at h
    · simp only [List.singleton_append, List.cons.injEq] at h
      exact h1 h.1

lemma decodeCell_encodeCell (c : List Char) : decodeCell (encodeCell c) = c := by
  by_cases hc : c = []
  · subst hc
    simp [encodeCell, decodeCell]
  · have h1 : encodeCell c = escapeCell c := by simp [encodeCell, hc]
    rw [h1]
    unfold decodeCell
    rw [if_neg (escapeCell_ne_marker hc)]
    have h2 := unescape_escapeCell_append c []
    simpa [unescape] using h2

lemma encodeRow_ne_nil {cells : List (List Char)} (h : cells ≠ []) :
    encodeRow cells ≠ [] := by
  match cells, h with
  | c :: cs, _ =>
    unfold encodeRow
    cases cs with
    | nil =>
      simpa [List.intercalate, List.intersperse] using encodeCell_ne_nil c
    | cons b bs =>
      simp only [List.map_cons, List.intercalate, List.intersperse_cons_cons,
        List.flatten_cons]
      simp [encodeCell_ne_nil]

lemma newline_not_mem_encodeRow (cells : List (List Char)) :
    ('\n' : Char) ∉ encodeRow cells := by
  unfold encodeRow
  refine not_mem_intercalate_single (by decide) ?_
  intro l hl
  obtain ⟨c, -, rfl⟩ := List.mem_map.mp hl
  exact newline_not_mem_encodeCell c

lemma decodeRow_encodeRow (cells : List (List Char)) :
    decodeRow (encodeRow cells) = cells := by
  cases cells with
  | nil =>
    simp [decodeRow, encodeRow, List.intercalate]
  | cons c cs =>
    have hne : encodeRow (c :: cs) ≠ [] := encodeRow_ne_nil (by simp)
    have hx : ∀ l ∈ (c :: cs).map encodeCell, (',' : Char) ∉ l := by
      intro l hl
      obtain ⟨x, -, rfl⟩ := List.mem_map.mp hl
      exact comma_not_mem_encodeCell x
    have hnil : (c :: cs).map encodeCell ≠ [] := by simp
    unfold decodeRow
    rw [if_neg hne]
    unfold encodeRow
    rw [List.splitOn_intercalate _ ',' hx hnil, List.map_map,
      List.map_congr_left (fun x _ => by simpa using decodeCell_encodeCell x)]
    exact List.map_id' _

/-- C8.  (spec-modelled) Serializing any Table through the CSV-formatting
download transform and re-parsing the bytes yields the table back: same row
count and same column values, with no restriction on the table — separator
characters inside cells are escaped by the writer and restored by the
parser, as pandas' quoting does. -/
theorem convert_df_round_trip (t : CsvTable) :
    parse_csv (convert_df t) = t := by
  have hnl : ∀ l ∈ (t.header :: t.rows).map encodeRow, ('\n' : Char) ∉ l := by
    intro l hl
    obtain ⟨row, -, rfl⟩ := List.mem_map.mp hl
    exact newline_not_mem_encodeRow row
  have hsplit : (convert_df t).splitOn '\n' =
      (t.header :: t.rows).map encodeRow := by
    unfold convert_df
    exact List.splitOn_intercalate _ '\n' hnl (by simp)
  unfold parse_csv
  rw [hsplit]
  simp only [List.map_cons, List.headD_cons, List.tail_cons, List.map_map]
  rw [decodeRow_encodeRow,
    List.map_congr_left (fun row _ => by simpa using decodeRow_encodeRow row),
    List.map_id']

/-- The round trip on a concrete table whose cells contain the comma and
newline separators and an empty cell, checked by evaluation. -/
theorem convert_df_separator_example :
    parse_csv (convert_df ⟨["a,b".data, []], [[['\n'], "x\\y".data]]⟩) =
      ⟨["a,b".data, []], [[['\n'], "x\\y".data]]⟩ := by
  decide

end GlocalViz
